import Mathlib

/-!
Verification of the demonstration websocket client (examples/client.py).

The script is a single linear coroutine: it connects to
ws://{host}:{port}/ws, generates a random uint16 array of shape
(25, 1, 512, 512, 1) with values drawn from [0, 2048), sends a JSON
header naming shape, dtype and an identifier, sends the identifier's
utf-8 bytes concatenated with the raw array bytes, and closes the
connection with reason "Goodbye!".  The main block parses --host,
--port and --hash and runs the coroutine under a 5-second timeout.

Randomness is modelled by an abstract stream of natural numbers; the
network is modelled by an explicit event trace and a failure oracle
assigning to each awaited operation an optional raised error.
-/

/-- Number of elements of the fixed array shape (25, 1, 512, 512, 1). -/
def numel : Nat := 25 * 1 * 512 * 512 * 1

/-- The shape tuple (25, 1, 512, 512, 1) passed to np.random.randint. -/
def arrShape : List Nat := [25, 1, 512, 512, 1]

/-- Model of one draw of numpy.random.randint(lo, hi): a uniform sampler
over the half-open range [lo, hi) reduces an abstract random stream value
modulo the width of the range and offsets it by lo. -/
def randint (lo hi : Nat) (s : Nat) : Nat := lo + s % (hi - lo)

/-- A numpy ndarray as used by the client: a shape, a dtype name and the
flat (C-order) element data. -/
structure NDArr where
  shape : List Nat
  dtype : String
  data : List Nat
deriving DecidableEq

/-- The flat element data of the generated array: one randint draw per
element position. -/
def arrData (stream : Nat → Nat) : List Nat :=
  (List.range numel).map (fun i => randint 0 2048 (stream i))

/-- The array built by
np.random.randint(0, 2048, (25, 1, 512, 512, 1), dtype=np.uint16),
as a function of the abstract random stream. -/
def arr (stream : Nat → Nat) : NDArr :=
  { shape := arrShape
    dtype := "uint16"
    data := arrData stream }

attribute [irreducible] arrData

/-- UTF-8 encoding of a single character, as used by str.encode("utf-8"). -/
def utf8Char (c : Char) : List Nat :=
  let n := c.toNat
  if n < 0x80 then [n]
  else if n < 0x800 then [0xC0 ||| (n >>> 6), 0x80 ||| (n &&& 0x3F)]
  else if n < 0x10000 then
    [0xE0 ||| (n >>> 12), 0x80 ||| ((n >>> 6) &&& 0x3F), 0x80 ||| (n &&& 0x3F)]
  else
    [0xF0 ||| (n >>> 18), 0x80 ||| ((n >>> 12) &&& 0x3F),
      0x80 ||| ((n >>> 6) &&& 0x3F), 0x80 ||| (n &&& 0x3F)]

/-- Byte sequence of hash.encode("utf-8"). -/
def utf8 (s : String) : List Nat := s.data.flatMap utf8Char

/-- The two little-endian bytes of one uint16 element, as laid out by
ndarray.tobytes() on a little-endian platform. -/
def u16le (v : Nat) : List Nat := [v % 256, v / 256 % 256]

/-- Model of arr.tobytes(): the raw bytes of the flat element data, two
little-endian bytes per uint16 element. -/
def tobytes (a : NDArr) : List Nat := a.data.flatMap u16le

/-- A JSON value as it appears in the client's header dict: a string or
an array of integers. -/
inductive HVal where
  | jstr (s : String)
  | jarr (ns : List Nat)
deriving DecidableEq

/-- The header dict passed to json.dumps: insertion-ordered fields
shape, dtype, hash (Python dicts preserve insertion order). -/
def headerFields (a : NDArr) (hash : String) : List (String × HVal) :=
  [("shape", HVal.jarr a.shape), ("dtype", HVal.jstr a.dtype), ("hash", HVal.jstr hash)]

/-- Lower-case hexadecimal digit, as produced by json.dumps escapes. -/
def hexDigit (n : Nat) : Char :=
  if n < 10 then Char.ofNat (48 + n) else Char.ofNat (97 + (n - 10))

/-- Four-digit hexadecimal rendering used in a JSON unicode escape. -/
def hex4 (n : Nat) : String :=
  String.mk [hexDigit (n / 4096 % 16), hexDigit (n / 256 % 16),
    hexDigit (n / 16 % 16), hexDigit (n % 16)]

/-- Escaping of one character by json.dumps with its default
ensure_ascii=True: the two JSON metacharacters and the usual control
shorthands get a backslash form, every other character outside printable
ASCII becomes a unicode escape (a surrogate pair beyond the BMP), and
printable ASCII passes through. -/
def escapeChar (c : Char) : String :=
  if c.toNat = 34 then "\\\""
  else if c.toNat = 92 then "\\\\"
  else if c.toNat = 10 then "\\n"
  else if c.toNat = 13 then "\\r"
  else if c.toNat = 9 then "\\t"
  else if c.toNat = 8 then "\\b"
  else if c.toNat = 12 then "\\f"
  else if c.toNat < 0x20 ∨ 0x7e < c.toNat then
    if c.toNat < 0x10000 then "\\u" ++ hex4 c.toNat
    else
      "\\u" ++ hex4 (0xD800 + (c.toNat - 0x10000) / 0x400) ++
        "\\u" ++ hex4 (0xDC00 + (c.toNat - 0x10000) % 0x400)
  else String.singleton c

/-- json.dumps escaping applied to a whole string. -/
def jsonEscape (s : String) : String := String.join (s.data.map escapeChar)

/-- A JSON string literal: quotes around the escaped text. -/
def jsonStr (s : String) : String := "\"" ++ jsonEscape s ++ "\""

/-- Serialization of one header value by json.dumps (default
separators: a comma-space between items). -/
def dumpHVal : HVal → String
  | HVal.jstr s => jsonStr s
  | HVal.jarr ns => "[" ++ String.intercalate ", " (ns.map toString) ++ "]"

/-- Message 1: msg = json.dumps(dict(shape=..., dtype=..., hash=...)),
with json.dumps default separators (comma-space, colon-space). -/
def msg (a : NDArr) (hash : String) : String :=
  "\x7b" ++ String.intercalate ", "
    ((headerFields a hash).map (fun kv => jsonStr kv.1 ++ ": " ++ dumpHVal kv.2)) ++ "\x7d"

/-- Message 2: hash.encode("utf-8") + arr.tobytes(). -/
def msg2 (hash : String) (a : NDArr) : List Nat := utf8 hash ++ tobytes a

/-- The connection target built by the f-string: ws://{host}:{port}/ws. -/
def uri (host : String) (port : Int) : String :=
  "ws://" ++ host ++ ":" ++ toString port ++ "/ws"

/-- Observable network operations of one run. -/
inductive Event where
  | connect (u : String)
  | sendText (s : String)
  | sendBytes (b : List Nat)
  | close (reason : Option String)
deriving DecidableEq

/-- Errors a run can raise: connection failures, serialization failures,
the asyncio timeout, or any other exception (carried opaquely). -/
inductive Err where
  | connectionError
  | serializationError
  | timeoutError
  | other (s : String)
deriving DecidableEq

/-- Whether an event is one of the two send operations. -/
def Event.isSend : Event → Bool
  | Event.sendText _ => true
  | Event.sendBytes _ => true
  | _ => false

/-- Whether an event closes the connection. -/
def Event.isClose : Event → Bool
  | Event.close _ => true
  | _ => false

/-- The events strictly after the first close of a trace (empty when no
close occurs). -/
def afterFirstClose (tr : List Event) : List Event :=
  (tr.dropWhile (fun e => ! e.isClose)).tail

/-- One run of async def hello(host, port, hash): connect, send the
header, send the identifier bytes plus raw array bytes, close with
reason "Goodbye!".  The three awaited operations (connect and the two
sends) may each raise; fail k is the error raised by operation k, if
any.  The async with block closes the connection on any error path
after a successful connect; the explicit close is idempotent, so a
completed run closes exactly once.  The result is none on completion
and some e when error e propagates to the caller. -/
def hello (host : String) (port : Int) (hash : String) (stream : Nat → Nat)
    (fail : Nat → Option Err) : List Event × Option Err :=
  match fail 0 with
  | some e => ([], some e)
  | none =>
    match fail 1 with
    | some e => ([Event.connect (uri host port), Event.close none], some e)
    | none =>
      match fail 2 with
      | some e =>
        ([Event.connect (uri host port), Event.sendText (msg (arr stream) hash),
          Event.close none], some e)
      | none =>
        ([Event.connect (uri host port), Event.sendText (msg (arr stream) hash),
          Event.sendBytes (msg2 hash (arr stream)), Event.close (some "Goodbye!")], none)

/-- The first error raised by the failure oracle, in program order. -/
def firstFailure (fail : Nat → Option Err) : Option Err :=
  (fail 0).orElse fun _ => (fail 1).orElse fun _ => fail 2

/-- The timeout passed to asyncio.wait_for, in seconds. -/
def timeoutSeconds : Nat := 5

/-- asyncio.run(asyncio.wait_for(hello(...), timeout=5)): when the wall
time the run would take exceeds the timeout, the whole sequence is
aborted with a TimeoutError; otherwise the run's own result (completion
or its error, unchanged) is the result. -/
def mainResult (host : String) (port : Int) (hash : String) (stream : Nat → Nat)
    (fail : Nat → Option Err) (elapsed : Nat) : Option Err :=
  if timeoutSeconds < elapsed then some Err.timeoutError
  else (hello host port hash stream fail).2

/-- The parsed command-line configuration. -/
structure Args where
  host : String
  port : Int
  hash : String
deriving DecidableEq

/-- Applying one flag-value pair to the configuration; unknown flags are
an argparse error, and --port converts its value with type=int. -/
def setFlag (a : Args) (flag v : String) : Option Args :=
  if flag = "--host" then some { a with host := v }
  else if flag = "--port" then (v.toInt?).map fun n => { a with port := n }
  else if flag = "--hash" then some { a with hash := v }
  else none

/-- Consuming the argument list two tokens at a time; a flag without a
value is an argparse error. -/
def parseFrom : Args → List String → Option Args
  | a, [] => some a
  | _, [_] => none
  | a, f :: v :: rest => (setFlag a f v).bind fun b => parseFrom b rest

/-- parser.parse_args(): the three optional flags with their declared
defaults host="localhost", port=8765, hash="dev"; no subcommands. -/
def parseArgs (argv : List String) : Option Args :=
  parseFrom { host := "localhost", port := 8765, hash := "dev" } argv

theorem length_flatMap_const {α β : Type} (f : α → List β) (k : Nat)
    (h : ∀ x, (f x).length = k) (l : List α) :
    (l.flatMap f).length = k * l.length := by
  induction l with
  | nil => simp
  | cons x xs ih =>
    simp only [List.flatMap_cons, List.length_append, ih, h x, List.length_cons]
    ring

theorem arr_data (stream : Nat → Nat) : (arr stream).data = arrData stream := rfl

theorem arrData_length (stream : Nat → Nat) : (arrData stream).length = numel := by
  rw [arrData, List.length_map, List.length_range]

theorem tobytes_arr_length (stream : Nat → Nat) :
    (tobytes (arr stream)).length = 2 * numel := by
  rw [tobytes, length_flatMap_const u16le 2 (fun _ => rfl), arr_data, arrData_length]

theorem msg2_arr_length (hash : String) (stream : Nat → Nat) :
    (msg2 hash (arr stream)).length = (utf8 hash).length + 2 * numel := by
  rw [msg2, List.length_append, tobytes_arr_length]

/-- Claim C1, as stated, fails: for the one-character identifier "é" the
second message is two bytes of utf-8 plus the array bytes, which is one
more byte than the character count of the identifier plus the array
bytes. -/
theorem c1_counterexample :
    ¬ ((msg2 "é" (arr (fun _ => 0))).length
        = "é".length + 25 * 1 * 512 * 512 * 1 * 2) := by
  rw [msg2_arr_length]
  have h1 : (utf8 "é").length = 2 := by decide
  have h2 : "é".length = 1 := by decide
  rw [h1, h2]
  norm_num [numel]

/-- Claim C1 (amended): for every run and every identifier string hash,
the byte length of the second message equals the utf-8 byte length of
hash plus 25*1*512*512*1*2 bytes; this equals the character count of
hash exactly when every character of hash occupies one utf-8 byte. -/
theorem c1_byte_length (hash : String) (stream : Nat → Nat) :
    (msg2 hash (arr stream)).length
      = (utf8 hash).length + 25 * 1 * 512 * 512 * 1 * 2 := by
  rw [msg2_arr_length]
  norm_num [numel]

/-- Claim C2: every element of the generated array lies in [0, 2048):
the elements are natural numbers (hence non-negative) strictly below
2048. -/
theorem c2_elements_in_range (stream : Nat → Nat) :
    ∀ x ∈ (arr stream).data, x < 2048 := by
  intro x hx
  rw [arr_data, arrData] at hx
  obtain ⟨i, -, rfl⟩ := List.mem_map.mp hx
  simp only [randint]
  omega

theorem c2_witness :
    randint 0 2048 0 ∈ (arr (fun _ => 0)).data ∧ randint 0 2048 0 < 2048 := by
  have hm : randint 0 2048 0 ∈ (arr (fun _ => 0)).data := by
    rw [arr_data, arrData]
    exact List.mem_map.mpr ⟨0, List.mem_range.mpr (by norm_num [numel]), rfl⟩
  exact ⟨hm, c2_elements_in_range (fun _ => 0) _ hm⟩

/-- Claim C3: the header sent as message 1 declares exactly the shape
and dtype of the array payload: the declared shape is (25,1,512,512,1),
the declared dtype is "uint16", and these are the shape and dtype of
the generated array, whose element count is the product of the declared
shape. -/
theorem c3_header_shape_dtype (stream : Nat → Nat) (hash : String) :
    (headerFields (arr stream) hash).lookup "shape"
        = some (HVal.jarr [25, 1, 512, 512, 1]) ∧
    (headerFields (arr stream) hash).lookup "dtype" = some (HVal.jstr "uint16") ∧
    (arr stream).shape = [25, 1, 512, 512, 1] ∧
    (arr stream).dtype = "uint16" ∧
    (arr stream).data.length = (arr stream).shape.prod := by
  refine ⟨rfl, rfl, rfl, rfl, ?_⟩
  rw [arr_data, arrData_length]
  have hs : (arr stream).shape = arrShape := rfl
  rw [hs]
  decide

/-- Claim C4: the header dict serialized into message 1 has exactly the
three keys shape, dtype, hash in that order, and the value stored under
hash is the caller-supplied identifier string itself; for the default
identifier the serialized text is the expected JSON object. -/
theorem c4_header_keys (stream : Nat → Nat) (hash : String) :
    ((headerFields (arr stream) hash).map Prod.fst = ["shape", "dtype", "hash"]) ∧
    (headerFields (arr stream) hash).lookup "hash" = some (HVal.jstr hash) ∧
    msg (arr stream) "dev"
      = "\x7b\"shape\": [25, 1, 512, 512, 1], \"dtype\": \"uint16\", \"hash\": \"dev\"\x7d" := by
  exact ⟨rfl, rfl, rfl⟩

/-- Claim C5: every run performs steps of the fixed linear sequence
connect, send header, send payload, close, in this order: the
failure-free run's trace is exactly that sequence (two sends, header
first, close last); in every run nothing follows a close, and the sends
performed form an in-order initial segment of the two sends. -/
theorem c5_sequence (host : String) (port : Int) (hash : String)
    (stream : Nat → Nat) (fail : Nat → Option Err) :
    (hello host port hash stream (fun _ => none)).1
      = [Event.connect (uri host port), Event.sendText (msg (arr stream) hash),
          Event.sendBytes (msg2 hash (arr stream)), Event.close (some "Goodbye!")] ∧
    (hello host port hash stream (fun _ => none)).2 = none ∧
    afterFirstClose (hello host port hash stream fail).1 = [] ∧
    ((hello host port hash stream fail).1.filter Event.isSend = [] ∨
      (hello host port hash stream fail).1.filter Event.isSend
        = [Event.sendText (msg (arr stream) hash)] ∨
      (hello host port hash stream fail).1.filter Event.isSend
        = [Event.sendText (msg (arr stream) hash),
            Event.sendBytes (msg2 hash (arr stream))]) := by
  have htr : (hello host port hash stream fail).1 = [] ∨
      (hello host port hash stream fail).1
        = [Event.connect (uri host port), Event.close none] ∨
      (hello host port hash stream fail).1
        = [Event.connect (uri host port), Event.sendText (msg (arr stream) hash),
            Event.close none] ∨
      (hello host port hash stream fail).1
        = [Event.connect (uri host port), Event.sendText (msg (arr stream) hash),
            Event.sendBytes (msg2 hash (arr stream)), Event.close (some "Goodbye!")] := by
    rcases h0 : fail 0 with _ | e0
    · rcases h1 : fail 1 with _ | e1
      · rcases h2 : fail 2 with _ | e2
        · right; right; right; simp [hello, h0, h1, h2]
        · right; right; left; simp [hello, h0, h1, h2]
      · right; left; simp [hello, h0, h1]
    · left; simp [hello, h0]
  refine ⟨rfl, rfl, ?_, ?_⟩
  · rcases htr with h | h | h | h <;> rw [h] <;> rfl
  · rcases htr with h | h | h | h
    · left; rw [h]; rfl
    · left; rw [h]; rfl
    · right; left; rw [h]; rfl
    · right; right; rw [h]; rfl

/-- Claim C6: a run that raises no error closes the connection exactly
once, with the fixed close reason "Goodbye!". -/
theorem c6_close_reason (host : String) (port : Int) (hash : String)
    (stream : Nat → Nat) (fail : Nat → Option Err)
    (h : (hello host port hash stream fail).2 = none) :
    (hello host port hash stream fail).1.filter Event.isClose
      = [Event.close (some "Goodbye!")] := by
  rcases h0 : fail 0 with _ | e0
  · rcases h1 : fail 1 with _ | e1
    · rcases h2 : fail 2 with _ | e2
      · simp [hello, h0, h1, h2, Event.isClose, List.filter]
      · simp [hello, h0, h1, h2] at h
    · simp [hello, h0, h1] at h
  · simp [hello, h0] at h

theorem c6_witness :
    (hello "localhost" 8765 "dev" (fun _ => 0) (fun _ => none)).2 = none ∧
    (hello "localhost" 8765 "dev" (fun _ => 0) (fun _ => none)).1.filter Event.isClose
      = [Event.close (some "Goodbye!")] :=
  ⟨rfl, c6_close_reason "localhost" 8765 "dev" (fun _ => 0) (fun _ => none) rfl⟩

/-- Claim C7: parsing an empty command line yields the defaults
host="localhost", port=8765, hash="dev". -/
theorem c7_defaults :
    parseArgs [] = some { host := "localhost", port := 8765, hash := "dev" } := rfl

/-- Claim C8: a run's result is exactly the first error its operations
raise (no error is caught, retried, or replaced), and the
timeout-wrapped invocation yields a timeout error exactly when the run
exceeds the 5-second timeout, and otherwise passes the run's result
through unchanged. -/
theorem c8_propagation (host : String) (port : Int) (hash : String)
    (stream : Nat → Nat) (fail : Nat → Option Err) (elapsed : Nat) :
    ((hello host port hash stream fail).2 = firstFailure fail) ∧
    (timeoutSeconds < elapsed →
      mainResult host port hash stream fail elapsed = some Err.timeoutError) ∧
    (elapsed ≤ timeoutSeconds →
      mainResult host port hash stream fail elapsed
        = (hello host port hash stream fail).2) := by
  refine ⟨?_, ?_, ?_⟩
  · rcases h0 : fail 0 with _ | e0
    · rcases h1 : fail 1 with _ | e1
      · rcases h2 : fail 2 with _ | e2 <;>
          simp [hello, firstFailure, h0, h1, h2, Option.orElse]
      · simp [hello, firstFailure, h0, h1, Option.orElse]
    · simp [hello, firstFailure, h0, Option.orElse]
  · intro h
    simp only [mainResult, if_pos h]
  · intro h
    simp only [mainResult, if_neg (Nat.not_lt.mpr h)]

theorem c8_witness :
    timeoutSeconds < 6 ∧
    mainResult "localhost" 8765 "dev" (fun _ => 0)
      (fun _ => some Err.connectionError) 6 = some Err.timeoutError ∧
    5 ≤ timeoutSeconds ∧
    mainResult "localhost" 8765 "dev" (fun _ => 0)
      (fun _ => some Err.connectionError) 5
      = (hello "localhost" 8765 "dev" (fun _ => 0)
          (fun _ => some Err.connectionError)).2 ∧
    (hello "localhost" 8765 "dev" (fun _ => 0)
      (fun _ => some Err.connectionError)).2
      = firstFailure (fun _ => some Err.connectionError) := by
  refine ⟨by decide, ?_, by decide, ?_, ?_⟩
  · exact (c8_propagation "localhost" 8765 "dev" (fun _ => 0)
      (fun _ => some Err.connectionError) 6).2.1 (by decide)
  · exact (c8_propagation "localhost" 8765 "dev" (fun _ => 0)
      (fun _ => some Err.connectionError) 5).2.2 (by decide)
  · exact (c8_propagation "localhost" 8765 "dev" (fun _ => 0)
      (fun _ => some Err.connectionError) 5).1

/-- Claim C9: the hash field of the header and the leading bytes of
message 2 are consistent: the header stores the identifier string
itself, and the first utf8-length-of-hash bytes of message 2 are
exactly the utf-8 encoding of that stored string. -/
theorem c9_hash_consistency (stream : Nat → Nat) (hash : String) :
    (headerFields (arr stream) hash).lookup "hash" = some (HVal.jstr hash) ∧
    (msg2 hash (arr stream)).take (utf8 hash).length = utf8 hash := by
  refine ⟨rfl, ?_⟩
  rw [msg2]
  exact List.take_left (utf8 hash) (tobytes (arr stream))

/-- Claim C10: the connection target is always the fixed string built
from the ws scheme, the host, the port and the fixed resource path /ws;
in particular it starts with "ws://" and ends with "/ws". -/
theorem c10_uri_format (host : String) (port : Int) :
    uri host port = "ws://" ++ host ++ ":" ++ toString port ++ "/ws" ∧
    (∃ rest, (uri host port).data = "ws://".data ++ rest) ∧
    (∃ front, (uri host port).data = front ++ "/ws".data) := by
  refine ⟨rfl, ⟨(host ++ ":" ++ toString port ++ "/ws").data, ?_⟩,
    ⟨("ws://" ++ host ++ ":" ++ toString port).data, ?_⟩⟩
  · simp [uri, String.data_append]
  · simp [uri, String.data_append]
